import Mathlib

/-!
Verification development for the arXiv manifest pipeline
(`src/feck/arxiv/manifest.py`): a shallow embedding of the schema
validator, record consistency checker, timestamp normalizers, record
normalizer, import orchestrator, and statistics aggregation, together
with theorems settling the specification claims.

Modelling conventions:
* Decoded XML documents are values of `PyVal` (the shapes `xmltodict`
  can produce: strings, lists, string-keyed mappings, other scalars).
* Python exceptions are modelled with `Except PyErr`; the error kinds
  carry the message string where the source specifies one.
* CPython's `int(str)` builtin is modelled on its ASCII fragment
  (surrounding whitespace, an optional sign, digits with single
  underscore separators), which covers every value occurring in the
  pipeline's domain of interest.
* The IANA `America/New_York` rules (an external data dependency of the
  source) are modelled for the post-1987 United States DST regimes.
-/

/-- Error kinds raised by the pipeline, mirroring the Python exception
classes used in `manifest.py` (messages included where the source
specifies them). -/
inductive PyErr where
  | fileNotFound (msg : String)
  | typeErr (msg : String)
  | valueErr (msg : String)
  | attributeErr (msg : String)
deriving DecidableEq

/-- Decoded-document values: the shapes `xmltodict.parse` can produce
(strings, lists, string-keyed mappings, and other scalars such as
`None`). -/
inductive PyVal where
  | str (s : String)
  | list (xs : List PyVal)
  | dict (kvs : List (String × PyVal))
  | other

/-- First-match association-list lookup, modelling Python `d[k]` /
`k in d` on dictionaries (whose keys are unique). -/
def alookup {α : Type} : List (String × α) → String → Option α
  | [], _ => none
  | (k, v) :: rest, key => if k = key then some v else alookup rest key

/-- The key list of a dictionary, modelling `d.keys()`. -/
def keysOf {α : Type} (d : List (String × α)) : List String :=
  d.map Prod.fst

/-- Set equality of key collections, modelling Python
`set(xs) == set(ys)`. -/
def keySetEq (xs ys : List String) : Bool :=
  xs.all (fun k => ys.contains k) && ys.all (fun k => xs.contains k)

/-- ASCII whitespace recognizer for the fragment of `str.strip()` used
by `int()`. -/
def isSpaceChar (c : Char) : Bool :=
  c.toNat = 32 || (9 ≤ c.toNat && c.toNat ≤ 13)

/-- ASCII digit test (on the code point). -/
def isDigitChar (c : Char) : Bool :=
  48 ≤ c.toNat && c.toNat ≤ 57

/-- Numeric value of an ASCII digit character. -/
def digitVal (c : Char) : Nat := c.toNat - 48

/-- Strip leading and trailing whitespace characters, modelling the
implicit strip performed by `int(str)`. -/
def stripWS (cs : List Char) : List Char :=
  ((cs.dropWhile isSpaceChar).reverse.dropWhile isSpaceChar).reverse

/-- Digit-run scanner for `int(str)`: digits optionally separated by
single underscores, accumulating the value. -/
def digitsCore (acc : Nat) : List Char → Option Nat
  | [] => some acc
  | c :: rest =>
    if c.toNat = 95 then
      match rest with
      | [] => none
      | c2 :: rest2 =>
        if isDigitChar c2 then digitsCore (10 * acc + digitVal c2) rest2 else none
    else if isDigitChar c then digitsCore (10 * acc + digitVal c) rest
    else none

/-- Parse a non-empty unsigned digit run (with underscore separators),
as accepted by `int(str)` after sign handling. -/
def parseUnsigned : List Char → Option Nat
  | [] => none
  | c :: rest => if isDigitChar c then digitsCore (digitVal c) rest else none

/-- Model of CPython `int(s)` on its ASCII fragment: strip surrounding
whitespace, then an optional `-`/`+` sign followed by digits with single
underscore separators.  Returns `none` where CPython raises
`ValueError`. -/
def pyInt (s : String) : Option Int :=
  match stripWS s.data with
  | [] => none
  | c :: rest =>
    if c.toNat = 45 then (parseUnsigned rest).map (fun n => -(n : Int))
    else if c.toNat = 43 then (parseUnsigned rest).map (fun n => (n : Int))
    else (parseUnsigned (c :: rest)).map (fun n => (n : Int))

/-- `int(s)` as an `Except`, raising the `ValueError` CPython raises on
unparsable literals. -/
def pyIntE (s : String) : Except PyErr Int :=
  match pyInt s with
  | some n => Except.ok n
  | none => Except.error (PyErr.valueErr ("invalid literal for int() with base 10: " ++ s))

/-- Left-pad a string with `'0'` to the given width (Python `zfill`). -/
def zfill (s : String) (k : Nat) : String :=
  if k ≤ s.length then s else String.mk (List.replicate (k - s.length) '0') ++ s

/-- Python `f"{n:03d}"`: decimal rendering zero-padded to total width 3,
the sign counting toward the width. -/
def format03d (n : Int) : String :=
  if n < 0 then "-" ++ zfill (toString n.natAbs) 2 else zfill (toString n.toNat) 3

/-- Python slicing `s[:n]`. -/
def strTake (s : String) (n : Nat) : String := String.mk (s.data.take n)

/-- Python slicing `s[n:]`. -/
def strDrop (s : String) (n : Nat) : String := String.mk (s.data.drop n)

/-- Gregorian leap-year test. -/
def isLeapYear (y : Nat) : Bool :=
  (y % 4 = 0 && y % 100 ≠ 0) || y % 400 = 0

/-- Days in a month of the Gregorian calendar (months 1..12). -/
def daysInMonth (y m : Nat) : Nat :=
  if m = 2 then (if isLeapYear y then 29 else 28)
  else if m = 4 || m = 6 || m = 9 || m = 11 then 30
  else 31

/-- Days in the months strictly before month `m` of year `y`. -/
def daysBeforeMonth (y m : Nat) : Nat :=
  let base :=
    if m = 1 then 0 else if m = 2 then 31 else if m = 3 then 59
    else if m = 4 then 90 else if m = 5 then 120 else if m = 6 then 151
    else if m = 7 then 181 else if m = 8 then 212 else if m = 9 then 243
    else if m = 10 then 273 else if m = 11 then 304 else 334
  if 3 ≤ m && isLeapYear y then base + 1 else base

/-- Days in the years strictly before Gregorian year `y` (year ≥ 1). -/
def daysBeforeYear (y : Nat) : Nat :=
  ((365 * (y - 1) + (y - 1) / 4) - (y - 1) / 100) + (y - 1) / 400

/-- Day count of a civil date from 0001-01-01 (which is day 0). -/
def dayNumber (y m d : Nat) : Nat :=
  daysBeforeYear y + daysBeforeMonth y m + (d - 1)

/-- Weekday of a civil date, Monday = 0 .. Sunday = 6 (0001-01-01 was a
Monday, matching `datetime.weekday`). -/
def weekdayOf (y m d : Nat) : Nat := dayNumber y m d % 7

/-- Day of month of the first Sunday of the given month. -/
def firstSunday (y m : Nat) : Nat :=
  1 + (6 + 7 - weekdayOf y m 1) % 7

/-- Day of month of the last Sunday of the given month. -/
def lastSunday (y m : Nat) : Nat :=
  let n := daysInMonth y m
  n - (weekdayOf y m n + 7 - 6) % 7

/-- Civil date (year, month, day) from a day count (inverse of
`dayNumber`); Howard Hinnant's civil-from-days algorithm shifted to the
0001-01-01 epoch. -/
def civilFromDayNumber (n : Nat) : Nat × Nat × Nat :=
  let z := n + 306
  let era := z / 146097
  let doe := z % 146097
  let yoe := (((doe - doe / 1460) + doe / 36524) - doe / 146096) / 365
  let y0 := yoe + era * 400
  let doy := doe - ((365 * yoe + yoe / 4) - yoe / 100)
  let mp := (5 * doy + 2) / 153
  let d := (doy - (153 * mp + 2) / 5) + 1
  let m := if mp < 10 then mp + 3 else mp - 9
  (if m ≤ 2 then y0 + 1 else y0, m, d)

/-- Modelled from the IANA `America/New_York` data (external dependency
of the source): whether the wall-clock time is in daylight saving under
the United States rules — from 2007 second Sunday in March 02:00 to
first Sunday in November 02:00, from 1987 to 2006 first Sunday in April
02:00 to last Sunday in October 02:00 (earlier years treated with the
1987 rule; no claim depends on them).  Follows PEP 495 `fold=0`
disambiguation: the nonexistent spring-forward hour resolves to the
pre-gap standard offset, the ambiguous fall-back hour to the earlier
(daylight) offset. -/
def easternIsDST (y m d hh : Nat) : Bool :=
  if 2007 ≤ y then
    let ds := firstSunday y 3 + 7
    let de := firstSunday y 11
    (3 < m || (m = 3 && (ds < d || (ds = d && 3 ≤ hh)))) &&
    (m < 11 || (m = 11 && (d < de || (d = de && hh < 2))))
  else
    let ds := firstSunday y 4
    let de := lastSunday y 10
    (4 < m || (m = 4 && (ds < d || (ds = d && 3 ≤ hh)))) &&
    (m < 10 || (m = 10 && (d < de || (d = de && hh < 2))))

/-- Render a natural number zero-padded to width 2. -/
def pad2 (n : Nat) : String := zfill (toString n) 2

/-- Render a natural number zero-padded to width 4. -/
def pad4 (n : Nat) : String := zfill (toString n) 4

/-- Convert a US-Eastern wall-clock datetime to UTC and render it in
ISO-8601 extended format with the explicit `+00:00` offset, as
`datetime.astimezone(UTC).isoformat()` does. -/
def easternToUtcIso (y mo d h mi s : Nat) : String :=
  let off := if easternIsDST y mo d h then 4 else 5
  let t := dayNumber y mo d * 86400 + h * 3600 + mi * 60 + s + off * 3600
  let days := t / 86400
  let sod := t % 86400
  let c := civilFromDayNumber days
  pad4 c.1 ++ "-" ++ pad2 c.2.1 ++ "-" ++ pad2 c.2.2 ++ "T" ++
    pad2 (sod / 3600) ++ ":" ++ pad2 (sod % 3600 / 60) ++ ":" ++ pad2 (sod % 60) ++ "+00:00"


/-- Lowercase an ASCII letter (code-point arithmetic), for the
case-insensitive name matching of `_strptime`. -/
def lowerChar (c : Char) : Char :=
  if 65 ≤ c.toNat && c.toNat ≤ 90 then Char.ofNat (c.toNat + 32) else c

/-- `%a`: match one abbreviated weekday name case-insensitively,
returning the remaining input (the parsed weekday is unused, as in
`datetime.strptime` without `%U`/`%W`). -/
def parseWeekdayName : List Char → Option (List Char)
  | c1 :: c2 :: c3 :: rest =>
    let w := [lowerChar c1, lowerChar c2, lowerChar c3]
    if w = ['m','o','n'] || w = ['t','u','e'] || w = ['w','e','d'] ||
       w = ['t','h','u'] || w = ['f','r','i'] || w = ['s','a','t'] || w = ['s','u','n']
    then some rest else none
  | _ => none

/-- `%b`: match one abbreviated month name case-insensitively, returning
the month number and the remaining input. -/
def parseMonthName : List Char → Option (Nat × List Char)
  | c1 :: c2 :: c3 :: rest =>
    let w := [lowerChar c1, lowerChar c2, lowerChar c3]
    if w = ['j','a','n'] then some (1, rest)
    else if w = ['f','e','b'] then some (2, rest)
    else if w = ['m','a','r'] then some (3, rest)
    else if w = ['a','p','r'] then some (4, rest)
    else if w = ['m','a','y'] then some (5, rest)
    else if w = ['j','u','n'] then some (6, rest)
    else if w = ['j','u','l'] then some (7, rest)
    else if w = ['a','u','g'] then some (8, rest)
    else if w = ['s','e','p'] then some (9, rest)
    else if w = ['o','c','t'] then some (10, rest)
    else if w = ['n','o','v'] then some (11, rest)
    else if w = ['d','e','c'] then some (12, rest)
    else none
  | _ => none

/-- A whitespace run in the format (`\s+` in `_strptime`'s regex):
require at least one whitespace character, then consume the run. -/
def skipWS1 : List Char → Option (List Char)
  | c :: rest => if isSpaceChar c then some (rest.dropWhile isSpaceChar) else none
  | [] => none

/-- Match one literal character of the format. -/
def parseLit (c : Char) : List Char → Option (List Char)
  | c2 :: rest => if c2 = c then some rest else none
  | _ => none

/-- One- or two-digit numeric directive of `_strptime`'s regex.  Each
such directive is followed in both formats by a non-digit (separator or
end), so the regex's longest-alternative-first backtracking reduces to:
take two digits when two are available (value constrained by `ok2`),
else one digit (value constrained by `ok1`). -/
def parseNum2 (ok2 ok1 : Nat → Bool) : List Char → Option (Nat × List Char)
  | c1 :: c2 :: rest =>
    if isDigitChar c1 then
      if isDigitChar c2 then
        let v := 10 * digitVal c1 + digitVal c2
        if ok2 v then some (v, rest) else none
      else if ok1 (digitVal c1) then some (digitVal c1, c2 :: rest) else none
    else none
  | [c1] => if isDigitChar c1 && ok1 (digitVal c1) then some (digitVal c1, []) else none
  | [] => none

/-- `%Y`: exactly four digits. -/
def parseYear4 : List Char → Option (Nat × List Char)
  | c1 :: c2 :: c3 :: c4 :: rest =>
    if isDigitChar c1 && isDigitChar c2 && isDigitChar c3 && isDigitChar c4 then
      some (1000 * digitVal c1 + 100 * digitVal c2 + 10 * digitVal c3 + digitVal c4, rest)
    else none
  | _ => none

/-- `%d`: day of month, regex `3[01]|[12]\d|0[1-9]|[1-9]`. -/
def parseDay2 : List Char → Option (Nat × List Char) :=
  parseNum2 (fun v => 1 ≤ v && v ≤ 31) (fun v => 1 ≤ v)

/-- `%m`: month, regex `1[0-2]|0[1-9]|[1-9]`. -/
def parseMonth2 : List Char → Option (Nat × List Char) :=
  parseNum2 (fun v => 1 ≤ v && v ≤ 12) (fun v => 1 ≤ v)

/-- `%H`: hour, regex `2[0-3]|[0-1]\d|\d`. -/
def parseHour2 : List Char → Option (Nat × List Char) :=
  parseNum2 (fun v => v ≤ 23) (fun _ => true)

/-- `%M`: minute, regex `[0-5]\d|\d`. -/
def parseMinute2 : List Char → Option (Nat × List Char) :=
  parseNum2 (fun v => v ≤ 59) (fun _ => true)

/-- `%S`: second, regex `6[0-1]|[0-5]\d|\d`. -/
def parseSecond2 : List Char → Option (Nat × List Char) :=
  parseNum2 (fun v => v ≤ 61) (fun _ => true)

/-- Validation performed by the `datetime` constructor after the regex
match: year in `MINYEAR..`, day within the month, second below 60. -/
def datetimeValid (y mo d s : Nat) : Bool :=
  1 ≤ y && 1 ≤ d && d ≤ daysInMonth y mo && s ≤ 59

/-- `datetime.strptime(s, "%a %b %d %H:%M:%S %Y")`: parse the arXiv
manifest timestamp layout, `none` where CPython raises `ValueError`
(regex mismatch, unconverted trailing data, or constructor
validation). -/
def strptimeManifest (s : String) : Option (Nat × Nat × Nat × Nat × Nat × Nat) := do
  let r1 ← parseWeekdayName s.data
  let r2 ← skipWS1 r1
  let (mo, r3) ← parseMonthName r2
  let r4 ← skipWS1 r3
  let (d, r5) ← parseDay2 r4
  let r6 ← skipWS1 r5
  let (h, r7) ← parseHour2 r6
  let r8 ← parseLit ':' r7
  let (mi, r9) ← parseMinute2 r8
  let r10 ← parseLit ':' r9
  let (sec, r11) ← parseSecond2 r10
  let r12 ← skipWS1 r11
  let (y, r13) ← parseYear4 r12
  if r13 = [] && datetimeValid y mo d sec then
    some (y, mo, d, h, mi, sec)
  else none

/-- `datetime.strptime(s, "%Y-%m-%d %H:%M:%S")`: parse the arXiv file
entry timestamp layout, `none` where CPython raises `ValueError`. -/
def strptimeEntry (s : String) : Option (Nat × Nat × Nat × Nat × Nat × Nat) := do
  let (y, r1) ← parseYear4 s.data
  let r2 ← parseLit '-' r1
  let (mo, r3) ← parseMonth2 r2
  let r4 ← parseLit '-' r3
  let (d, r5) ← parseDay2 r4
  let r6 ← skipWS1 r5
  let (h, r7) ← parseHour2 r6
  let r8 ← parseLit ':' r7
  let (mi, r9) ← parseMinute2 r8
  let r10 ← parseLit ':' r9
  let (sec, r11) ← parseSecond2 r10
  if r11 = [] && datetimeValid y mo d sec then
    some (y, mo, d, h, mi, sec)
  else none

/-- `Manifest._convert_arxiv_timestamp_to_iso`: strptime on the
weekday/month-name layout, attach US Eastern, convert to UTC, render
ISO-8601; the strptime `ValueError` propagates. -/
def convert_arxiv_timestamp_to_iso (timestamp : String) : Except PyErr String :=
  match strptimeManifest timestamp with
  | none => Except.error (PyErr.valueErr
      ("time data " ++ timestamp ++ " does not match format %a %b %d %H:%M:%S %Y"))
  | some (y, mo, d, h, mi, s) => Except.ok (easternToUtcIso y mo d h mi s)

/-- `Manifest._convert_arxiv_file_entry_timestamp_to_iso`: strptime on
the `YYYY-MM-DD HH:MM:SS` layout, attach US Eastern, convert to UTC,
render ISO-8601; the strptime `ValueError` propagates. -/
def convert_arxiv_file_entry_timestamp_to_iso (timestamp : String) : Except PyErr String :=
  match strptimeEntry timestamp with
  | none => Except.error (PyErr.valueErr
      ("time data " ++ timestamp ++ " does not match format %Y-%m-%d %H:%M:%S"))
  | some (y, mo, d, h, mi, s) => Except.ok (easternToUtcIso y mo d h mi s)


/-- The ten required file-entry field names. -/
def expectedFileKeys : List String :=
  ["content_md5sum", "filename", "first_item", "last_item", "md5sum",
   "num_items", "seq_num", "size", "timestamp", "yymm"]

/-- `entry.keys()` comparison step of `_is_arxiv_keys_present`'s first
list comprehension: for each entry in order, `.keys()` raises
`AttributeError` on a non-mapping (the comprehension is eager, so the
first such entry raises); otherwise compare the key set. -/
def entriesKeysOk : List PyVal → Except PyErr Bool
  | [] => Except.ok true
  | PyVal.dict kvs :: rest =>
    match entriesKeysOk rest with
    | Except.error e => Except.error e
    | Except.ok b => Except.ok (keySetEq (keysOf kvs) expectedFileKeys && b)
  | _ :: _ => Except.error (PyErr.attributeErr "object has no attribute keys")

/-- Value check of `_is_arxiv_keys_present`'s second list comprehension:
every value of the entry is a string (entries reaching this point are
mappings). -/
def entryValuesStr : PyVal → Bool
  | PyVal.dict kvs =>
    kvs.all (fun p => match p.2 with | PyVal.str _ => true | _ => false)
  | _ => false

/-- `Manifest._is_arxiv_keys_present`: exact-key-set schema validation
of the decoded document.  Mirrors the source's nested conditionals,
including the `AttributeError` raised by `.keys()` when a non-mapping
stands where the chain has committed to key access. -/
def is_arxiv_keys_present (xml_dict : List (String × PyVal)) : Except PyErr Bool :=
  if keySetEq (keysOf xml_dict) ["arXivSRC"] then
    match alookup xml_dict "arXivSRC" with
    | some (PyVal.dict src) =>
      if keySetEq (keysOf src) ["file", "timestamp"] then
        match alookup src "timestamp", alookup src "file" with
        | some (PyVal.str _), some (PyVal.list xs) =>
          match entriesKeysOk xs with
          | Except.error e => Except.error e
          | Except.ok false => Except.ok false
          | Except.ok true => Except.ok (xs.all entryValuesStr)
        | _, _ => Except.ok false
      else Except.ok false
    | some _ => Except.error (PyErr.attributeErr "object has no attribute keys")
    | none => Except.ok false
  else Except.ok false

/-- Whether a decoded value is a mapping. -/
def entryIsDict : PyVal → Bool
  | PyVal.dict _ => true
  | _ => false

/-- The spec's per-element condition on `file` elements: a mapping whose
key set is exactly the ten field names and whose values are all
strings. -/
def specEntryOk : PyVal → Bool
  | PyVal.dict kvs =>
    keySetEq (keysOf kvs) expectedFileKeys &&
    kvs.all (fun p => match p.2 with | PyVal.str _ => true | _ => false)
  | _ => false

/-- The schema predicate as §4.1 of the spec words it (for the
refinement comparison with `is_arxiv_keys_present`): exact top-level key
set, exact nested key set, `timestamp` a string, `file` a sequence,
every element a mapping with exactly the ten field names, every field
value a string. -/
def schemaValidSpec (d : List (String × PyVal)) : Bool :=
  keySetEq (keysOf d) ["arXivSRC"] &&
  (match alookup d "arXivSRC" with
   | some (PyVal.dict src) =>
     keySetEq (keysOf src) ["file", "timestamp"] &&
     (match alookup src "timestamp", alookup src "file" with
      | some (PyVal.str _), some (PyVal.list xs) => xs.all specEntryOk
      | _, _ => false)
   | _ => false)

/-- The exact region where `_is_arxiv_keys_present` can reach a `.keys()`
call on a non-mapping: safe documents are those in which, once the
top-level key set matches, the value under `arXivSRC` is a mapping, and
once the nested checks pass, every element of `file` is a mapping. -/
def docAccessSafe (d : List (String × PyVal)) : Bool :=
  !keySetEq (keysOf d) ["arXivSRC"] ||
  (match alookup d "arXivSRC" with
   | some (PyVal.dict src) =>
     !keySetEq (keysOf src) ["file", "timestamp"] ||
     (match alookup src "timestamp", alookup src "file" with
      | some (PyVal.str _), some (PyVal.list xs) => xs.all entryIsDict
      | _, _ => true)
   | some _ => false
   | none => true)

/-- A raw file entry after schema validation: the ten string-valued
fields of a `file` element. -/
structure RawEntry where
  content_md5sum : String
  filename : String
  first_item : String
  last_item : String
  md5sum : String
  num_items : String
  seq_num : String
  size : String
  timestamp : String
  yymm : String
deriving DecidableEq

/-- A normalized manifest record (`_process_file_entry`'s result
dictionary); the `hash` pair is flattened into its two fields. -/
structure NormalizedRecord where
  filename : String
  size_bytes : Int
  timestamp_iso : String
  year : Int
  month : Int
  sequence_number : Int
  n_submissions : Int
  hashMD5 : String
  hashMD5contents : String
deriving DecidableEq

/-- `Manifest._is_file_entry_consistent`: parse `seq_num`, build the
generated filename `src/arXiv_src_{yymm}_{seq_num:03d}.tar`, compare
with the `filename` field, then parse the month from `yymm[2:]` and
range-check it.  `int()` parse failures propagate as `ValueError`. -/
def is_file_entry_consistent (e : RawEntry) : Except PyErr Bool :=
  match pyIntE e.seq_num with
  | Except.error er => Except.error er
  | Except.ok seq =>
    let generated := "src/arXiv_src_" ++ e.yymm ++ "_" ++ format03d seq ++ ".tar"
    let c1 : Bool := e.filename == generated
    match pyIntE (strDrop e.yymm 2) with
    | Except.error er => Except.error er
    | Except.ok month =>
      Except.ok (c1 && !(decide (month ≤ 0) || decide (12 < month)))

/-- `Manifest._process_file_entry`: consistency check first (raising
`ValueError "Entry inconsistent"` on rejection), then the field
derivations in the source's dictionary-literal order; every `int()` or
strptime failure propagates. -/
def process_file_entry (e : RawEntry) : Except PyErr NormalizedRecord :=
  match is_file_entry_consistent e with
  | Except.error er => Except.error er
  | Except.ok false => Except.error (PyErr.valueErr "Entry inconsistent")
  | Except.ok true =>
    match pyIntE e.size with
    | Except.error er => Except.error er
    | Except.ok size =>
      match convert_arxiv_file_entry_timestamp_to_iso e.timestamp with
      | Except.error er => Except.error er
      | Except.ok ts =>
        match pyIntE (strTake e.yymm 2) with
        | Except.error er => Except.error er
        | Except.ok yy =>
          match pyIntE ((if 90 < yy then "19" else "20") ++ strTake e.yymm 2) with
          | Except.error er => Except.error er
          | Except.ok year =>
            match pyIntE (strDrop e.yymm 2) with
            | Except.error er => Except.error er
            | Except.ok month =>
              match pyIntE e.seq_num with
              | Except.error er => Except.error er
              | Except.ok seq =>
                match pyIntE e.num_items with
                | Except.error er => Except.error er
                | Except.ok n =>
                  Except.ok ⟨e.filename, size, ts, year, month, seq, n,
                             e.md5sum, e.content_md5sum⟩

/-- The Manifest's owned state: the `metadata` dictionary (string
values) and the `contents` record list. -/
structure Manifest where
  metadata : List (String × String)
  contents : List NormalizedRecord
deriving DecidableEq

/-- The default state `_set_defaults` installs: empty metadata, empty
contents. -/
def defaultManifest : Manifest := ⟨[], []⟩

/-- `Manifest.clear`: drop all state and reinstall the defaults. -/
def Manifest.clear (_ : Manifest) : Manifest := defaultManifest

/-- String field extraction used when reading a validated entry mapping
(the `""` default is unreachable on validated entries). -/
def getStrD (kvs : List (String × PyVal)) (k : String) : String :=
  match alookup kvs k with
  | some (PyVal.str s) => s
  | _ => ""

/-- View a validated `file` element as a `RawEntry`. -/
def rawOfVal : PyVal → RawEntry
  | PyVal.dict kvs =>
    ⟨getStrD kvs "content_md5sum", getStrD kvs "filename", getStrD kvs "first_item",
     getStrD kvs "last_item", getStrD kvs "md5sum", getStrD kvs "num_items",
     getStrD kvs "seq_num", getStrD kvs "size", getStrD kvs "timestamp",
     getStrD kvs "yymm"⟩
  | _ => ⟨"", "", "", "", "", "", "", "", "", ""⟩

/-- `xml_dict['arXivSRC']['timestamp']` on a validated document. -/
def docTimestamp (d : List (String × PyVal)) : String :=
  match alookup d "arXivSRC" with
  | some (PyVal.dict src) =>
    match alookup src "timestamp" with
    | some (PyVal.str s) => s
    | _ => ""
  | _ => ""

/-- `xml_dict['arXivSRC']['file']` on a validated document. -/
def docFiles (d : List (String × PyVal)) : List PyVal :=
  match alookup d "arXivSRC" with
  | some (PyVal.dict src) =>
    match alookup src "file" with
    | some (PyVal.list xs) => xs
    | _ => []
  | _ => []

/-- Left-to-right effectful map over the entry list, mirroring the
Python list comprehension: the first failing entry's exception
propagates and no partial list is assigned. -/
def mapExcept {α β : Type} (f : α → Except PyErr β) : List α → Except PyErr (List β)
  | [] => Except.ok []
  | x :: xs =>
    match f x with
    | Except.error e => Except.error e
    | Except.ok y =>
      match mapExcept f xs with
      | Except.error e => Except.error e
      | Except.ok ys => Except.ok (y :: ys)

/-- `Manifest.import_arxiv_xml`, with the external collaborators made
explicit: `isfile` is the `os.path.isfile` answer, `basename` is
`os.path.basename(file_path)`, and `doc` is the dictionary a successful
`XmlHandler.read_xml_to_dict` returned.  The method clears first, checks
existence, validates the schema (propagating its `AttributeError`),
assigns the metadata (after the manifest-timestamp conversion), then
assigns the processed contents; any failure leaves the state reached so
far, paired with the raised error. -/
def Manifest.import_arxiv_xml (m : Manifest) (isfile : Bool) (basename : String)
    (doc : List (String × PyVal)) : Manifest × Option PyErr :=
  let m1 := m.clear
  if !isfile then
    (m1, some (PyErr.fileNotFound "arXiv XML file not found"))
  else
    match is_arxiv_keys_present doc with
    | Except.error e => (m1, some e)
    | Except.ok false => (m1, some (PyErr.typeErr "Entries missing in arXiv XML file"))
    | Except.ok true =>
      match convert_arxiv_timestamp_to_iso (docTimestamp doc) with
      | Except.error e => (m1, some e)
      | Except.ok ts =>
        let m2 : Manifest :=
          ⟨[("manifest_filename", basename), ("timestamp_iso", ts)], m1.contents⟩
        match mapExcept (fun v => process_file_entry (rawOfVal v)) (docFiles doc) with
        | Except.error e => (m2, some e)
        | Except.ok recs => (⟨m2.metadata, recs⟩, none)

/-- The `(year, month)` grouping key of a record. -/
def recKey (r : NormalizedRecord) : Int × Int := (r.year, r.month)

/-- One loop iteration of `get_statistics`: insert a zero bucket when
the key is new (Python appends new dict keys at the end), then add the
record's `size_bytes` and `n_submissions` into its bucket. -/
def statsAdd (st : List ((Int × Int) × (Int × Int))) (r : NormalizedRecord) :
    List ((Int × Int) × (Int × Int)) :=
  let k := recKey r
  let st1 := if st.any (fun p => decide (p.1 = k)) then st else st ++ [(k, (0, 0))]
  st1.map (fun p => if p.1 = k then (p.1, (p.2.1 + r.size_bytes, p.2.2 + r.n_submissions)) else p)

/-- `Manifest.get_statistics`: fold the records in stored order into the
insertion-ordered bucket mapping. -/
def Manifest.get_statistics (m : Manifest) : List ((Int × Int) × (Int × Int)) :=
  m.contents.foldl statsAdd []

/-- `get_statistics` with the instance state threaded explicitly: the
method body only reads `self._manifest['contents']` and returns a fresh
dictionary, so the state passes through unchanged. -/
def Manifest.get_statistics_stateful (m : Manifest) :
    Manifest × List ((Int × Int) × (Int × Int)) :=
  (m, m.get_statistics)

instance {ε α : Type} [DecidableEq ε] [DecidableEq α] : DecidableEq (Except ε α)
  | Except.ok x, Except.ok y =>
    if h : x = y then isTrue (by rw [h]) else isFalse (by intro hc; cases hc; exact h rfl)
  | Except.error e, Except.error f =>
    if h : e = f then isTrue (by rw [h]) else isFalse (by intro hc; cases hc; exact h rfl)
  | Except.ok _, Except.error _ => isFalse (by intro hc; cases hc)
  | Except.error _, Except.ok _ => isFalse (by intro hc; cases hc)

/-! ### Concrete fixtures used by counterexamples and witnesses -/

/-- A schema-valid `file` element with the given filename, sequence
number, `yymm` and timestamp (remaining fields fixed strings). -/
def entryDict (fn seq yymm ts : String) : PyVal :=
  PyVal.dict [("content_md5sum", PyVal.str "a"), ("filename", PyVal.str fn),
    ("first_item", PyVal.str "b"), ("last_item", PyVal.str "c"), ("md5sum", PyVal.str "d"),
    ("num_items", PyVal.str "2"), ("seq_num", PyVal.str seq), ("size", PyVal.str "10"),
    ("timestamp", PyVal.str ts), ("yymm", PyVal.str yymm)]

/-- A schema-valid two-entry document whose records are all
consistent. -/
def docGood : List (String × PyVal) :=
  [("arXivSRC", PyVal.dict
    [("timestamp", PyVal.str "Mon Apr  7 04:58:03 2025"),
     ("file", PyVal.list
       [entryDict "src/arXiv_src_0001_001.tar" "1" "0001" "2010-12-23 00:13:59",
        entryDict "src/arXiv_src_0002_001.tar" "1" "0002" "2010-12-23 00:18:09"])])]

/-- A schema-valid document whose first record is consistent and whose
second record has a filename mismatching the generated convention. -/
def docInc : List (String × PyVal) :=
  [("arXivSRC", PyVal.dict
    [("timestamp", PyVal.str "Mon Apr  7 04:58:03 2025"),
     ("file", PyVal.list
       [entryDict "src/arXiv_src_0001_001.tar" "1" "0001" "2010-12-23 00:13:59",
        entryDict "bad.tar" "1" "0002" "2010-12-23 00:18:09"])])]

/-- A non-default prior manifest state. -/
def mPrior : Manifest := ⟨[("k", "v")], [⟨"f", 10, "t", 2000, 1, 1, 3, "h", "hc"⟩]⟩

/-- A consistent raw entry with all-digit `yymm`. -/
def eGood : RawEntry :=
  ⟨"a", "src/arXiv_src_0001_001.tar", "b", "c", "d", "2", "1", "10",
   "2010-12-23 00:13:59", "0001"⟩

/-- A raw entry whose `yymm` is `"5 1"`: accepted by the pipeline
(Python `int` strips whitespace) but normalized to year 205. -/
def e51 : RawEntry :=
  ⟨"a", "src/arXiv_src_5 1_001.tar", "b", "c", "d", "2", "1", "10",
   "2010-12-23 12:00:00", "5 1"⟩

/-- A raw entry whose `yymm` is the three-character `"103"`: accepted by
the pipeline, normalized to year 2010 and month 3, yet its filename
embeds `103`, not `1003`. -/
def e103 : RawEntry :=
  ⟨"a", "src/arXiv_src_103_001.tar", "b", "c", "d", "2", "1", "10",
   "2010-12-23 12:00:00", "103"⟩

/-- A raw entry whose `seq_num` is not an integer literal. -/
def eBadSeq : RawEntry :=
  ⟨"a", "src/arXiv_src_0001_001.tar", "b", "c", "d", "2", "x", "10",
   "2010-12-23 12:00:00", "0001"⟩

/-- A raw entry with `yymm = "9001"`, exercising the year-rollover
boundary (90 ↦ 2090). -/
def e90 : RawEntry :=
  ⟨"a", "src/arXiv_src_9001_001.tar", "b", "c", "d", "2", "1", "10",
   "2010-12-23 12:00:00", "9001"⟩

/-! ### Claims -/

/-- C5: `_convert_arxiv_timestamp_to_iso` maps `Mon Apr  7 04:58:03
2025` (Eastern daylight time, offset −4) to
`2025-04-07T08:58:03+00:00`; `_convert_arxiv_file_entry_timestamp_to_iso`
maps `2010-12-23 00:13:59` (Eastern standard time, offset −5) to
`2010-12-23T05:13:59+00:00`; and each raises a `ValueError` — the parse
error propagates, nothing is swallowed — on every input string not
matching its fixed strptime format. -/
theorem timestamp_normalization_correct :
    convert_arxiv_timestamp_to_iso "Mon Apr  7 04:58:03 2025" =
      Except.ok "2025-04-07T08:58:03+00:00" ∧
    convert_arxiv_file_entry_timestamp_to_iso "2010-12-23 00:13:59" =
      Except.ok "2010-12-23T05:13:59+00:00" ∧
    (∀ s, strptimeManifest s = none →
      convert_arxiv_timestamp_to_iso s = Except.error (PyErr.valueErr
        ("time data " ++ s ++ " does not match format %a %b %d %H:%M:%S %Y"))) ∧
    (∀ s, strptimeEntry s = none →
      convert_arxiv_file_entry_timestamp_to_iso s = Except.error (PyErr.valueErr
        ("time data " ++ s ++ " does not match format %Y-%m-%d %H:%M:%S"))) := by
  refine ⟨rfl, rfl, ?_, ?_⟩
  · intro s h
    unfold convert_arxiv_timestamp_to_iso
    rw [h]
  · intro s h
    unfold convert_arxiv_file_entry_timestamp_to_iso
    rw [h]

/-- C5 witness: the theorem applied with the non-matching input `"x"`
discharges its parse-failure hypotheses concretely. -/
theorem timestamp_normalization_correct_witness :
    convert_arxiv_timestamp_to_iso "x" = Except.error (PyErr.valueErr
      ("time data " ++ "x" ++ " does not match format %a %b %d %H:%M:%S %Y")) ∧
    convert_arxiv_file_entry_timestamp_to_iso "x" = Except.error (PyErr.valueErr
      ("time data " ++ "x" ++ " does not match format %Y-%m-%d %H:%M:%S")) :=
  ⟨timestamp_normalization_correct.2.2.1 "x" rfl,
   timestamp_normalization_correct.2.2.2 "x" rfl⟩

/-- C10: `get_statistics` leaves the Manifest state unchanged (its body
only reads the record list and builds a fresh dictionary), and two
consecutive calls with no intervening mutation return equal results. -/
theorem get_statistics_pure (m : Manifest) :
    (Manifest.get_statistics_stateful m).1 = m ∧
    (Manifest.get_statistics_stateful (Manifest.get_statistics_stateful m).1).2 =
      (Manifest.get_statistics_stateful m).2 :=
  ⟨rfl, rfl⟩

/-! ### Statistics: spec-side definition and refinement (C7) -/

/-- First-occurrence deduplication of the grouping keys, per the spec's
"insertion order of first occurrence". -/
def firstKeys : List (Int × Int) → List (Int × Int)
  | [] => []
  | k :: ks => k :: (firstKeys ks).filter (fun k2 => decide (k2 ≠ k))

/-- Sum of `size_bytes` over the records of one `(year, month)`
bucket. -/
def sumSize (rs : List NormalizedRecord) (k : Int × Int) : Int :=
  ((rs.filter (fun r => decide (recKey r = k))).map NormalizedRecord.size_bytes).sum

/-- Sum of `n_submissions` over the records of one `(year, month)`
bucket. -/
def sumSubs (rs : List NormalizedRecord) (k : Int × Int) : Int :=
  ((rs.filter (fun r => decide (recKey r = k))).map NormalizedRecord.n_submissions).sum

/-- The statistics mapping as §4.5 of the spec words it: first-seen
bucket order, each bucket holding the two per-group sums. -/
def specStats (rs : List NormalizedRecord) : List ((Int × Int) × (Int × Int)) :=
  (firstKeys (rs.map recKey)).map (fun k => (k, (sumSize rs k, sumSubs rs k)))

theorem mem_firstKeys {k : Int × Int} : ∀ {l : List (Int × Int)},
    k ∈ firstKeys l ↔ k ∈ l := by
  intro l
  induction l with
  | nil => simp [firstKeys]
  | cons a l ih =>
    by_cases hk : k = a
    · subst hk; simp [firstKeys]
    · simp [firstKeys, List.mem_filter, hk, ih]

theorem firstKeys_append (l : List (Int × Int)) (k : Int × Int) :
    firstKeys (l ++ [k]) = if k ∈ l then firstKeys l else firstKeys l ++ [k] := by
  induction l with
  | nil => simp [firstKeys]
  | cons a l ih =>
    by_cases hmem : k ∈ l
    · simp only [List.cons_append, firstKeys, List.append_eq, ih, if_pos hmem,
        List.mem_cons, hmem, or_true, if_pos]
    · by_cases hka : k = a
      · subst hka
        simp [firstKeys, List.append_eq, ih, hmem, List.filter_append]
      · have : (k ∈ a :: l) = False := by
          simp [hka, hmem]
        simp [firstKeys, List.append_eq, ih, hmem, hka, List.filter_append, this]

theorem sumSize_append (rs : List NormalizedRecord) (r : NormalizedRecord)
    (k : Int × Int) :
    sumSize (rs ++ [r]) k = sumSize rs k + (if recKey r = k then r.size_bytes else 0) := by
  by_cases h : recKey r = k <;>
    simp [sumSize, List.filter_append, h]

theorem sumSubs_append (rs : List NormalizedRecord) (r : NormalizedRecord)
    (k : Int × Int) :
    sumSubs (rs ++ [r]) k = sumSubs rs k + (if recKey r = k then r.n_submissions else 0) := by
  by_cases h : recKey r = k <;>
    simp [sumSubs, List.filter_append, h]

theorem sumSize_of_not_mem {rs : List NormalizedRecord} {k : Int × Int}
    (h : k ∉ rs.map recKey) : sumSize rs k = 0 := by
  have : rs.filter (fun r => decide (recKey r = k)) = [] := by
    apply List.filter_eq_nil_iff.mpr
    intro r hr
    simp only [decide_eq_true_eq]
    intro hk
    exact h (List.mem_map.mpr ⟨r, hr, hk⟩)
  simp [sumSize, this]

theorem sumSubs_of_not_mem {rs : List NormalizedRecord} {k : Int × Int}
    (h : k ∉ rs.map recKey) : sumSubs rs k = 0 := by
  have : rs.filter (fun r => decide (recKey r = k)) = [] := by
    apply List.filter_eq_nil_iff.mpr
    intro r hr
    simp only [decide_eq_true_eq]
    intro hk
    exact h (List.mem_map.mpr ⟨r, hr, hk⟩)
  simp [sumSubs, this]

theorem statsAdd_specStats (rs : List NormalizedRecord) (r : NormalizedRecord) :
    statsAdd (specStats rs) r = specStats (rs ++ [r]) := by
  have hkeymem : ((specStats rs).any (fun p => decide (p.1 = recKey r))) =
      decide (recKey r ∈ rs.map recKey) := by
    by_cases h : recKey r ∈ rs.map recKey
    · have h1 : (specStats rs).any (fun p => decide (p.1 = recKey r)) = true :=
        List.any_eq_true.mpr ⟨(recKey r, (sumSize rs (recKey r), sumSubs rs (recKey r))),
          List.mem_map.mpr ⟨recKey r, mem_firstKeys.mpr h, rfl⟩, by simp⟩
      rw [h1, decide_eq_true h]
    · have h1 : (specStats rs).any (fun p => decide (p.1 = recKey r)) = false := by
        apply List.any_eq_false.mpr
        intro p hp
        rcases List.mem_map.mp hp with ⟨k, hk, rfl⟩
        simp only [decide_eq_true_eq]
        exact fun he => h (mem_firstKeys.mp (he ▸ hk))
      rw [h1, decide_eq_false h]
  by_cases h : recKey r ∈ rs.map recKey
  · simp only [statsAdd]
    rw [hkeymem, if_pos (by simpa using h)]
    simp only [specStats, List.map_map, List.map_append, List.map_cons, List.map_nil]
    rw [firstKeys_append, if_pos h]
    apply List.map_congr_left
    intro k hk
    by_cases hkr : k = recKey r
    · subst hkr
      simp [Function.comp, sumSize_append, sumSubs_append]
    · simp only [Function.comp_apply]
      rw [if_neg (by simpa using hkr), sumSize_append, sumSubs_append,
        if_neg (fun he => hkr he.symm), if_neg (fun he => hkr he.symm)]
      simp
  · simp only [statsAdd]
    rw [hkeymem, if_neg (by simpa using h)]
    simp only [specStats, List.map_map, List.map_append, List.map_cons, List.map_nil]
    rw [firstKeys_append, if_neg h, List.map_append]
    congr 1
    · apply List.map_congr_left
      intro k hk
      have hkr : k ≠ recKey r := fun he => h (mem_firstKeys.mp (he ▸ hk))
      simp only [Function.comp_apply]
      rw [if_neg (by simpa using hkr), sumSize_append, sumSubs_append,
        if_neg (fun he => hkr he.symm), if_neg (fun he => hkr he.symm)]
      simp
    · simp [sumSize_append, sumSubs_append, sumSize_of_not_mem h, sumSubs_of_not_mem h]

/-- C7: `get_statistics` computes exactly the spec's bucket mapping —
iterate records in stored order, group by `(year, month)` with result
keys in first-occurrence insertion order, and sum `size_bytes` and
`n_submissions` within each bucket (never overwriting); the empty record
sequence yields the empty mapping. -/
theorem get_statistics_correct (m : Manifest) :
    Manifest.get_statistics m = specStats m.contents ∧
    Manifest.get_statistics ⟨m.metadata, []⟩ = [] := by
  constructor
  · show m.contents.foldl statsAdd [] = specStats m.contents
    induction m.contents using List.reverseRecOn with
    | nil => rfl
    | append_singleton l r ih =>
      rw [List.foldl_append, List.foldl_cons, List.foldl_nil, ih, statsAdd_specStats]
  · rfl

/-! ### Schema validation (C2, C3) -/

theorem entriesKeysOk_isOk : ∀ xs : List PyVal,
    (entriesKeysOk xs).isOk = xs.all entryIsDict := by
  intro xs
  induction xs with
  | nil => rfl
  | cons e xs ih =>
    cases e with
    | dict kvs =>
      simp only [entriesKeysOk, List.all_cons, entryIsDict, Bool.true_and]
      cases hrec : entriesKeysOk xs with
      | error er => rw [hrec] at ih; exact ih
      | ok b => rw [hrec] at ih; simpa [Except.isOk, Except.toBool] using ih
    | str s => simp [entriesKeysOk, entryIsDict, Except.isOk, Except.toBool]
    | list l => simp [entriesKeysOk, entryIsDict, Except.isOk, Except.toBool]
    | other => simp [entriesKeysOk, entryIsDict, Except.isOk, Except.toBool]

theorem fileStage_ok_true_iff : ∀ xs : List PyVal,
    ((match entriesKeysOk xs with
      | Except.error e => (Except.error e : Except PyErr Bool)
      | Except.ok false => Except.ok false
      | Except.ok true => Except.ok (xs.all entryValuesStr)) = Except.ok true ↔
     xs.all specEntryOk = true) := by
  intro xs
  induction xs with
  | nil => simp [entriesKeysOk]
  | cons e xs ih =>
    cases e with
    | dict kvs =>
      cases hrec : entriesKeysOk xs with
      | error er =>
        rw [hrec] at ih
        simp only [entriesKeysOk, hrec, List.all_cons]
        simp only [reduceCtorEq, false_iff] at ih ⊢
        simp [ih]
      | ok b =>
        rw [hrec] at ih
        cases b with
        | false =>
          simp only [entriesKeysOk, hrec, List.all_cons, Bool.and_false]
          simp only [Except.ok.injEq, Bool.false_eq_true, false_iff] at ih ⊢
          simp [specEntryOk, ih]
        | true =>
          simp only [entriesKeysOk, hrec, List.all_cons, Bool.and_true]
          by_cases hks : keySetEq (keysOf kvs) expectedFileKeys
          · simp only [hks, if_true]
            simp only [Except.ok.injEq] at ih ⊢
            simp only [List.all_cons, entryValuesStr, specEntryOk, hks, Bool.true_and]
            constructor
            · intro hand
              rcases Bool.and_eq_true_iff.mp hand with ⟨h1, h2⟩
              rw [h1, ih.mp h2]
              simp
            · intro hand
              rcases Bool.and_eq_true_iff.mp hand with ⟨h1, h2⟩
              rw [h1, ih.mpr h2]
              simp
          · have hks' : keySetEq (keysOf kvs) expectedFileKeys = false :=
              Bool.not_eq_true _ ▸ by simpa using hks
            simp [hks', specEntryOk]
    | str s => simp [entriesKeysOk, specEntryOk]
    | list l => simp [entriesKeysOk, specEntryOk]
    | other => simp [entriesKeysOk, specEntryOk]

theorem fileStage_isOk (xs : List PyVal) :
    (match entriesKeysOk xs with
      | Except.error e => (Except.error e : Except PyErr Bool)
      | Except.ok false => Except.ok false
      | Except.ok true => Except.ok (xs.all entryValuesStr)).isOk = xs.all entryIsDict := by
  have hk := entriesKeysOk_isOk xs
  split
  next e heq => rw [heq] at hk; simpa [Except.isOk, Except.toBool] using hk
  next heq => rw [heq] at hk; simpa [Except.isOk, Except.toBool] using hk
  next heq => rw [heq] at hk; simpa [Except.isOk, Except.toBool] using hk

/-- C3 (amended): `is_arxiv_keys_present` returns `true` exactly on the
documents satisfying the spec's schema conditions (exact top-level key
set, exact nested key set, string timestamp, sequence `file`, exact
entry key sets, all-string entry values).  A deviation yields `false` or
— when a non-mapping sits where the already-committed chain calls
`.keys()` — an `AttributeError`, never `true`. -/
theorem schema_valid_iff (d : List (String × PyVal)) :
    is_arxiv_keys_present d = Except.ok true ↔ schemaValidSpec d = true := by
  unfold is_arxiv_keys_present schemaValidSpec
  by_cases h1 : keySetEq (keysOf d) ["arXivSRC"]
  · simp only [h1, if_true, Bool.true_and]
    cases hl : alookup d "arXivSRC" with
    | none => simp
    | some v =>
      cases v with
      | dict src =>
        by_cases h2 : keySetEq (keysOf src) ["file", "timestamp"]
        · simp only [h2, if_true, Bool.true_and]
          cases ht : alookup src "timestamp" with
          | none => cases hf : alookup src "file" with
            | none => simp
            | some v2 => cases v2 <;> simp
          | some v1 =>
            cases v1 with
            | str s =>
              cases hf : alookup src "file" with
              | none => simp
              | some v2 =>
                cases v2 with
                | list xs => exact fileStage_ok_true_iff xs
                | str s2 => simp
                | dict kvs => simp
                | other => simp
            | list l => cases hf : alookup src "file" with
              | none => simp
              | some v2 => cases v2 <;> simp
            | dict kvs => cases hf : alookup src "file" with
              | none => simp
              | some v2 => cases v2 <;> simp
            | other => cases hf : alookup src "file" with
              | none => simp
              | some v2 => cases v2 <;> simp
        · simp [h2]
      | str s => simp
      | list l => simp
      | other => simp
  · simp [h1]

/-- C2 (amended): on every decoded document in which a mapping stands
wherever the validator's committed key-access chain reaches (the value
under `arXivSRC` once the top-level key set matches; every `file`
element once the nested checks pass), `_is_arxiv_keys_present` returns a
boolean; on exactly the remaining documents the `.keys()` access raises
`AttributeError` instead of returning. -/
theorem schema_validation_total_iff (d : List (String × PyVal)) :
    (is_arxiv_keys_present d).isOk = docAccessSafe d := by
  unfold is_arxiv_keys_present docAccessSafe
  by_cases h1 : keySetEq (keysOf d) ["arXivSRC"]
  · simp only [h1, if_true, Bool.not_true, Bool.false_or]
    cases hl : alookup d "arXivSRC" with
    | none => simp [Except.isOk, Except.toBool]
    | some v =>
      cases v with
      | dict src =>
        by_cases h2 : keySetEq (keysOf src) ["file", "timestamp"]
        · simp only [h2, if_true, Bool.not_true, Bool.false_or]
          cases ht : alookup src "timestamp" with
          | none => cases hf : alookup src "file" with
            | none => simp [Except.isOk, Except.toBool]
            | some v2 => cases v2 <;> simp [Except.isOk, Except.toBool]
          | some v1 =>
            cases v1 with
            | str s =>
              cases hf : alookup src "file" with
              | none => simp [Except.isOk, Except.toBool]
              | some v2 =>
                cases v2 with
                | list xs => exact fileStage_isOk xs
                | str s2 => simp [Except.isOk, Except.toBool]
                | dict kvs => simp [Except.isOk, Except.toBool]
                | other => simp [Except.isOk, Except.toBool]
            | list l => cases hf : alookup src "file" with
              | none => simp [Except.isOk, Except.toBool]
              | some v2 => cases v2 <;> simp [Except.isOk, Except.toBool]
            | dict kvs => cases hf : alookup src "file" with
              | none => simp [Except.isOk, Except.toBool]
              | some v2 => cases v2 <;> simp [Except.isOk, Except.toBool]
            | other => cases hf : alookup src "file" with
              | none => simp [Except.isOk, Except.toBool]
              | some v2 => cases v2 <;> simp [Except.isOk, Except.toBool]
        · simp [h2, Except.isOk, Except.toBool]
      | str s => simp [Except.isOk, Except.toBool]
      | list l => simp [Except.isOk, Except.toBool]
      | other => simp [Except.isOk, Except.toBool]
  · simp [h1, Except.isOk, Except.toBool]

/-- C2 counterexample: a schema-shaped document whose `file` sequence
contains a string element makes `_is_arxiv_keys_present` raise
`AttributeError` (the eager `entry.keys()` comprehension), so the
validator does not return a boolean on every decoded document. -/
theorem schema_validator_raises_cex :
    is_arxiv_keys_present
      [("arXivSRC", PyVal.dict [("file", PyVal.list [PyVal.str "e"]),
                                ("timestamp", PyVal.str "t")])] =
    Except.error (PyErr.attributeErr "object has no attribute keys") := rfl

/-- C3 counterexample: the document `{arXivSRC: "x"}` deviates from the
schema (wrong type under the top-level key), yet the validator raises
`AttributeError` rather than returning `false`. -/
theorem schema_deviation_not_false_cex :
    is_arxiv_keys_present [("arXivSRC", PyVal.str "x")] =
      Except.error (PyErr.attributeErr "object has no attribute keys") ∧
    schemaValidSpec [("arXivSRC", PyVal.str "x")] = false := ⟨rfl, rfl⟩

/-! ### Record consistency (C4) -/

/-- C4 (amended): for every raw entry whose ten fields are strings and
whose `seq_num` and `yymm[2:]` parse as Python integers,
`_is_file_entry_consistent` returns a boolean, and returns `true`
exactly when the `filename` field equals the generated
`src/arXiv_src_{yymm}_{seq_num:03d}.tar` and the parsed month lies in
`[1, 12]`; when either derivation's `int()` parse fails the function
instead raises that `ValueError`. -/
theorem file_entry_consistency (e : RawEntry) (seq month : Int)
    (hseq : pyInt e.seq_num = some seq) (hm : pyInt (strDrop e.yymm 2) = some month) :
    (is_file_entry_consistent e).isOk = true ∧
    (is_file_entry_consistent e = Except.ok true ↔
      (e.filename = "src/arXiv_src_" ++ e.yymm ++ "_" ++ format03d seq ++ ".tar" ∧
       1 ≤ month ∧ month ≤ 12)) := by
  simp only [is_file_entry_consistent, pyIntE, hseq, hm]
  refine ⟨rfl, ?_⟩
  simp only [Except.ok.injEq, Bool.and_eq_true, beq_iff_eq, Bool.not_eq_true',
    Bool.or_eq_false_iff, decide_eq_false_iff_not, not_lt, not_le]
  constructor
  · rintro ⟨h1, h2, h3⟩
    exact ⟨h1, by omega, by omega⟩
  · rintro ⟨h1, h2, h3⟩
    exact ⟨h1, by omega, by omega⟩

/-- C4 counterexample: an entry whose `seq_num` field is the string
`"x"` makes `_is_file_entry_consistent` raise `ValueError` (from
`int(file_entry['seq_num'])`) instead of returning `false`. -/
theorem file_entry_consistency_raises_cex :
    is_file_entry_consistent eBadSeq =
      Except.error (PyErr.valueErr "invalid literal for int() with base 10: x") := rfl

/-- C4 witness: the amended theorem applied to a concrete consistent
entry. -/
theorem file_entry_consistency_witness :
    is_file_entry_consistent eGood = Except.ok true :=
  (file_entry_consistency eGood 1 1 rfl rfl).2.mpr ⟨rfl, by decide, by decide⟩

/-! ### Digit-string parsing lemmas and the year heuristic (C6) -/

theorem isDigit_not_space {c : Char} (h : isDigitChar c = true) : isSpaceChar c = false := by
  simp only [isDigitChar, Bool.and_eq_true, decide_eq_true_eq] at h
  simp only [isSpaceChar, Bool.or_eq_false_iff, Bool.and_eq_false_iff,
    decide_eq_false_iff_not, decide_eq_true_eq, not_le]
  omega

theorem digit_bounds {c : Char} (h : isDigitChar c = true) :
    48 ≤ c.toNat ∧ c.toNat ≤ 57 := by
  simpa [isDigitChar, Bool.and_eq_true, decide_eq_true_eq] using h

theorem stripWS_two {c1 c2 : Char} (h1 : isDigitChar c1 = true) (h2 : isDigitChar c2 = true) :
    stripWS [c1, c2] = [c1, c2] := by
  simp [stripWS, List.dropWhile_cons, isDigit_not_space h1, isDigit_not_space h2]

theorem pyInt_two {c1 c2 : Char} (h1 : isDigitChar c1 = true) (h2 : isDigitChar c2 = true) :
    pyInt (String.mk [c1, c2]) = some ((10 * digitVal c1 + digitVal c2 : Nat) : Int) := by
  have hb1 := digit_bounds h1
  have hb2 := digit_bounds h2
  have h45 : ¬(c1.toNat = 45) := by omega
  have h43 : ¬(c1.toNat = 43) := by omega
  have h95 : ¬(c2.toNat = 95) := by omega
  have hdata : (String.mk [c1, c2]).data = [c1, c2] := rfl
  unfold pyInt
  rw [hdata, stripWS_two h1 h2]
  simp [h45, h43, parseUnsigned, h1, digitsCore, h95, h2]

theorem stripWS_four {c1 c2 c3 c4 : Char} (h1 : isDigitChar c1 = true)
    (_h2 : isDigitChar c2 = true) (_h3 : isDigitChar c3 = true) (h4 : isDigitChar c4 = true) :
    stripWS [c1, c2, c3, c4] = [c1, c2, c3, c4] := by
  simp [stripWS, List.dropWhile_cons, isDigit_not_space h1, isDigit_not_space h4]

theorem pyInt_four {c1 c2 c3 c4 : Char} (h1 : isDigitChar c1 = true)
    (h2 : isDigitChar c2 = true) (h3 : isDigitChar c3 = true) (h4 : isDigitChar c4 = true) :
    pyInt (String.mk [c1, c2, c3, c4]) =
      some ((1000 * digitVal c1 + 100 * digitVal c2 + 10 * digitVal c3 + digitVal c4 : Nat) : Int) := by
  have hb1 := digit_bounds h1
  have hb2 := digit_bounds h2
  have hb3 := digit_bounds h3
  have hb4 := digit_bounds h4
  have h45 : ¬(c1.toNat = 45) := by omega
  have h43 : ¬(c1.toNat = 43) := by omega
  have h952 : ¬(c2.toNat = 95) := by omega
  have h953 : ¬(c3.toNat = 95) := by omega
  have h954 : ¬(c4.toNat = 95) := by omega
  have hdata : (String.mk [c1, c2, c3, c4]).data = [c1, c2, c3, c4] := rfl
  unfold pyInt
  rw [hdata, stripWS_four h1 h2 h3 h4]
  simp [h45, h43, parseUnsigned, h1, digitsCore, h952, h2, h953, h3, h954, h4]
  ring

/-- Whether the first two characters of a string are ASCII digits. -/
def twoDigitStart (s : String) : Bool :=
  match s.data with
  | c1 :: c2 :: _ => isDigitChar c1 && isDigitChar c2
  | _ => false

/-- C6 (amended): for every raw entry accepted by normalization whose
`yymm` starts with two digit characters, the derived year is
`1900 + yy` when `yy > 90` and `2000 + yy` otherwise, `yy` being the
integer parse of `yymm[:2]`; in particular `'00'` gives 2000, `'99'`
gives 1999, `'91'` gives 1991, and `'90'` gives 2090.  (Without the
digit restriction the concatenation `int("20" + yymm[:2])` can denature
the year: see the counterexample.) -/
theorem year_heuristic (e : RawEntry) (rec : NormalizedRecord) (yy : Int)
    (hok : process_file_entry e = Except.ok rec)
    (hyy : pyInt (strTake e.yymm 2) = some yy)
    (hdig : twoDigitStart e.yymm = true) :
    rec.year = if 90 < yy then 1900 + yy else 2000 + yy := by
  obtain ⟨c1, c2, rest, hd, h1, h2⟩ : ∃ c1 c2 rest, e.yymm.data = c1 :: c2 :: rest ∧
      isDigitChar c1 = true ∧ isDigitChar c2 = true := by
    unfold twoDigitStart at hdig
    rcases hdd : e.yymm.data with _ | ⟨a, _ | ⟨b, r⟩⟩ <;> rw [hdd] at hdig <;>
      simp only [Bool.and_eq_true] at hdig
    · exact absurd hdig (by simp)
    · exact absurd hdig (by simp)
    · exact ⟨a, b, r, rfl, hdig.1, hdig.2⟩
  have htake : strTake e.yymm 2 = String.mk [c1, c2] := by
    unfold strTake
    rw [hd]
    rfl
  have hyyv : yy = ((10 * digitVal c1 + digitVal c2 : Nat) : Int) := by
    rw [htake, pyInt_two h1 h2] at hyy
    exact (Option.some.injEq _ _ ▸ hyy).symm
  unfold process_file_entry at hok
  repeat' split at hok
  all_goals try exact Except.noConfusion hok
  rename_i x7 hc x6 vsize hsize x5 vts hts x4 yy2 hyy2 x3 yr hyear x2 mo hmo x1 sq hsq x0 nn hn
  injection hok with hrec
  rw [← hrec]
  show yr = if 90 < yy then 1900 + yy else 2000 + yy
  unfold pyIntE at hyy2 hyear
  rw [hyy] at hyy2
  have hyy2' : yy2 = yy := by
    simpa using hyy2.symm
  rw [hyy2', htake] at hyear
  by_cases h90 : 90 < yy
  · rw [if_pos h90] at hyear ⊢
    have hstr : ("19" ++ String.mk [c1, c2]) = String.mk ['1','9',c1,c2] := rfl
    rw [hstr, pyInt_four (by decide) (by decide) h1 h2] at hyear
    have := (Except.ok.injEq _ _ ▸ hyear)
    rw [hyyv]
    simp only [digitVal] at this ⊢
    push_cast at this ⊢
    omega
  · rw [if_neg h90] at hyear ⊢
    have hstr : ("20" ++ String.mk [c1, c2]) = String.mk ['2','0',c1,c2] := rfl
    rw [hstr, pyInt_four (by decide) (by decide) h1 h2] at hyear
    have := (Except.ok.injEq _ _ ▸ hyear)
    rw [hyyv]
    simp only [digitVal] at this ⊢
    push_cast at this ⊢
    omega

/-- The normalized record the pipeline produces for `e90`. -/
def r90 : NormalizedRecord :=
  ⟨"src/arXiv_src_9001_001.tar", 10, "2010-12-23T17:00:00+00:00", 2090, 1, 1, 2, "d", "a"⟩

/-- C6 witness: the theorem applied at the concrete accepted entry
`e90` (`yymm = "9001"`), exhibiting the 90 ↦ 2090 rollover boundary. -/
theorem year_heuristic_witness :
    process_file_entry e90 = Except.ok r90 ∧
    r90.year = (if 90 < (90 : Int) then 1900 + 90 else 2000 + 90) :=
  ⟨rfl, year_heuristic e90 r90 90 rfl rfl rfl⟩

/-- C6 counterexample: the accepted entry `e51` has `yymm = "5 1"`, so
`int(yymm[:2])` is 5 (Python `int` strips whitespace) and the claim
demands year 2005, but the code computes `int("20" + "5 ") = 205`. -/
theorem year_heuristic_cex :
    pyInt (strTake e51.yymm 2) = some 5 ∧
    (process_file_entry e51).toOption.map NormalizedRecord.year = some 205 ∧
    some (205 : Int) ≠ some ((2000 : Int) + 5) :=
  ⟨rfl, rfl, by decide⟩

/-! ### Error taxonomy lemmas and import error conditions (C8) -/

theorem entriesKeysOk_error_kind : ∀ (xs : List PyVal) (e : PyErr),
    entriesKeysOk xs = Except.error e →
    e = PyErr.attributeErr "object has no attribute keys" := by
  intro xs
  induction xs with
  | nil => intro e h; exact Except.noConfusion h
  | cons v xs ih =>
    intro e h
    cases v with
    | dict kvs =>
      unfold entriesKeysOk at h
      cases hrec : entriesKeysOk xs with
      | error e2 =>
        rw [hrec] at h
        simp only [Except.error.injEq] at h
        exact h ▸ ih e2 hrec
      | ok b => rw [hrec] at h; simp at h
    | str s =>
      unfold entriesKeysOk at h
      simp only [Except.error.injEq] at h
      exact h.symm
    | list l =>
      unfold entriesKeysOk at h
      simp only [Except.error.injEq] at h
      exact h.symm
    | other =>
      unfold entriesKeysOk at h
      simp only [Except.error.injEq] at h
      exact h.symm

theorem is_arxiv_error_kind (d : List (String × PyVal)) (e : PyErr)
    (h : is_arxiv_keys_present d = Except.error e) :
    e = PyErr.attributeErr "object has no attribute keys" := by
  unfold is_arxiv_keys_present at h
  repeat' split at h
  all_goals try exact Except.noConfusion h
  all_goals simp only [Except.error.injEq] at h
  · rename_i heq
    exact h ▸ entriesKeysOk_error_kind _ _ heq
  · exact h.symm

theorem pyIntE_error_kind (s : String) (er : PyErr) (h : pyIntE s = Except.error er) :
    er = PyErr.valueErr ("invalid literal for int() with base 10: " ++ s) := by
  unfold pyIntE at h
  split at h
  · exact Except.noConfusion h
  · simp only [Except.error.injEq] at h
    exact h.symm

theorem intErr_len (s : String) :
    18 < ("invalid literal for int() with base 10: " ++ s).length := by
  rw [String.length_append]
  have h40 : ("invalid literal for int() with base 10: " : String).length = 40 := rfl
  omega

theorem entryTsErr_len (s : String) :
    18 < ("time data " ++ s ++ " does not match format %Y-%m-%d %H:%M:%S").length := by
  rw [String.length_append, String.length_append]
  have h10 : ("time data " : String).length = 10 := rfl
  have h31 : (" does not match format %Y-%m-%d %H:%M:%S" : String).length = 40 := rfl
  omega

theorem manifestTsErr_len (s : String) :
    18 < ("time data " ++ s ++ " does not match format %a %b %d %H:%M:%S %Y").length := by
  rw [String.length_append, String.length_append]
  have h10 : ("time data " : String).length = 10 := rfl
  have h31 : (" does not match format %a %b %d %H:%M:%S %Y" : String).length = 43 := rfl
  omega

theorem convert_entry_error_kind (s : String) (er : PyErr)
    (h : convert_arxiv_file_entry_timestamp_to_iso s = Except.error er) :
    er = PyErr.valueErr ("time data " ++ s ++ " does not match format %Y-%m-%d %H:%M:%S") := by
  unfold convert_arxiv_file_entry_timestamp_to_iso at h
  split at h
  · simp only [Except.error.injEq] at h
    exact h.symm
  · exact Except.noConfusion h

theorem convert_manifest_error_kind (s : String) (er : PyErr)
    (h : convert_arxiv_timestamp_to_iso s = Except.error er) :
    er = PyErr.valueErr ("time data " ++ s ++ " does not match format %a %b %d %H:%M:%S %Y") := by
  unfold convert_arxiv_timestamp_to_iso at h
  split at h
  · simp only [Except.error.injEq] at h
    exact h.symm
  · exact Except.noConfusion h

theorem entryInc_len : ("Entry inconsistent" : String).length = 18 := rfl

theorem consistency_error_len (e : RawEntry) (er : PyErr)
    (h : is_file_entry_consistent e = Except.error er) :
    ∃ msg, er = PyErr.valueErr msg ∧ 18 < msg.length := by
  unfold is_file_entry_consistent at h
  repeat' split at h
  all_goals try exact Except.noConfusion h
  all_goals simp only [Except.error.injEq] at h
  · rename_i heq
    have hk := pyIntE_error_kind _ _ heq
    subst h
    exact ⟨_, hk, intErr_len _⟩
  · rename_i heq
    have hk := pyIntE_error_kind _ _ heq
    subst h
    exact ⟨_, hk, intErr_len _⟩

theorem valueErr_long_ne_inc {msg : String} (hlen : 18 < msg.length) :
    PyErr.valueErr msg ≠ PyErr.valueErr "Entry inconsistent" := by
  intro h
  simp only [PyErr.valueErr.injEq] at h
  rw [h, entryInc_len] at hlen
  omega

theorem process_error_kind (e : RawEntry) (er : PyErr)
    (h : process_file_entry e = Except.error er) :
    er = PyErr.valueErr "Entry inconsistent" ∨
    ∃ msg, er = PyErr.valueErr msg ∧ 18 < msg.length := by
  unfold process_file_entry at h
  repeat' split at h
  all_goals try exact Except.noConfusion h
  all_goals simp only [Except.error.injEq] at h
  · rename_i heq
    subst h
    exact Or.inr (consistency_error_len _ _ heq)
  · exact Or.inl h.symm
  all_goals first
    | (rename_i heq
       have hk := pyIntE_error_kind _ _ heq
       subst h
       exact Or.inr ⟨_, hk, intErr_len _⟩)
    | (rename_i heq
       have hk := convert_entry_error_kind _ _ heq
       subst h
       exact Or.inr ⟨_, hk, entryTsErr_len _⟩)

theorem mapExcept_error {α β : Type} (f : α → Except PyErr β) :
    ∀ (xs : List α) (er : PyErr), mapExcept f xs = Except.error er →
      ∃ x ∈ xs, f x = Except.error er := by
  intro xs
  induction xs with
  | nil => intro er h; exact Except.noConfusion h
  | cons x xs ih =>
    intro er h
    unfold mapExcept at h
    cases hf : f x with
    | error e2 =>
      rw [hf] at h
      simp only [Except.error.injEq] at h
      exact ⟨x, List.mem_cons_self x xs, h ▸ hf⟩
    | ok y =>
      rw [hf] at h
      cases hrec : mapExcept f xs with
      | error e2 =>
        rw [hrec] at h
        simp only [Except.error.injEq] at h
        rcases ih e2 hrec with ⟨z, hz, hfz⟩
        exact ⟨z, List.mem_cons_of_mem x hz, h ▸ hfz⟩
      | ok ys => rw [hrec] at h; exact Except.noConfusion h

/-- C8: `import_arxiv_xml` raises `FileNotFoundError` exactly when the
path does not reference an existing regular file (checked before any
read); raises the `TypeError` ("wrong type" / schema-invalid) exactly
when the schema validator returns `false` on the decoded document; and
`_process_file_entry` raises the `ValueError "Entry inconsistent"`
exactly when the consistency check returns `false` — the check runs
before any field derivation, so derivation errors (whose messages are
all longer than 18 characters) never masquerade as it. -/
theorem import_error_conditions (m : Manifest) (isfile : Bool) (bn : String)
    (doc : List (String × PyVal)) (e : RawEntry) :
    ((Manifest.import_arxiv_xml m isfile bn doc).2 =
        some (PyErr.fileNotFound "arXiv XML file not found") ↔ isfile = false) ∧
    ((Manifest.import_arxiv_xml m isfile bn doc).2 =
        some (PyErr.typeErr "Entries missing in arXiv XML file") ↔
      isfile = true ∧ is_arxiv_keys_present doc = Except.ok false) ∧
    (process_file_entry e = Except.error (PyErr.valueErr "Entry inconsistent") ↔
      is_file_entry_consistent e = Except.ok false) := by
  refine ⟨?_, ?_, ?_⟩
  · cases isfile with
    | false => simp [Manifest.import_arxiv_xml]
    | true =>
      cases hv : is_arxiv_keys_present doc with
      | error e2 =>
        have hek := is_arxiv_error_kind _ _ hv
        simp [Manifest.import_arxiv_xml, hv, hek]
      | ok b =>
        cases b with
        | false => simp [Manifest.import_arxiv_xml, hv]
        | true =>
          cases hc : convert_arxiv_timestamp_to_iso (docTimestamp doc) with
          | error e3 =>
            have hck := convert_manifest_error_kind _ _ hc
            simp [Manifest.import_arxiv_xml, hv, hc, hck]
          | ok ts =>
            cases hm : mapExcept (fun v => process_file_entry (rawOfVal v)) (docFiles doc) with
            | error e4 =>
              rcases mapExcept_error _ _ _ hm with ⟨x, hx, hfx⟩
              rcases process_error_kind _ _ hfx with h1 | ⟨msg, hmsg, hlen⟩
              · simp [Manifest.import_arxiv_xml, hv, hc, hm, h1]
              · simp [Manifest.import_arxiv_xml, hv, hc, hm, hmsg]
            | ok recs => simp [Manifest.import_arxiv_xml, hv, hc, hm]
  · cases isfile with
    | false => simp [Manifest.import_arxiv_xml]
    | true =>
      cases hv : is_arxiv_keys_present doc with
      | error e2 =>
        have hek := is_arxiv_error_kind _ _ hv
        simp [Manifest.import_arxiv_xml, hv, hek]
      | ok b =>
        cases b with
        | false => simp [Manifest.import_arxiv_xml, hv]
        | true =>
          cases hc : convert_arxiv_timestamp_to_iso (docTimestamp doc) with
          | error e3 =>
            have hck := convert_manifest_error_kind _ _ hc
            simp [Manifest.import_arxiv_xml, hv, hc, hck]
          | ok ts =>
            cases hm : mapExcept (fun v => process_file_entry (rawOfVal v)) (docFiles doc) with
            | error e4 =>
              rcases mapExcept_error _ _ _ hm with ⟨x, hx, hfx⟩
              rcases process_error_kind _ _ hfx with h1 | ⟨msg, hmsg, hlen⟩
              · simp [Manifest.import_arxiv_xml, hv, hc, hm, h1]
              · simp [Manifest.import_arxiv_xml, hv, hc, hm, hmsg]
            | ok recs => simp [Manifest.import_arxiv_xml, hv, hc, hm]
  · constructor
    · intro h
      unfold process_file_entry at h
      repeat' split at h
      all_goals try exact Except.noConfusion h
      · rename_i heq
        simp only [Except.error.injEq] at h
        rcases consistency_error_len _ _ heq with ⟨msg, hmsg, hlen⟩
        rw [hmsg] at h
        exact absurd h (valueErr_long_ne_inc hlen)
      · rename_i heq
        exact heq
      all_goals
        (rename_i heq
         simp only [Except.error.injEq] at h
         first
           | (have hk := pyIntE_error_kind _ _ heq
              rw [hk] at h
              exact absurd h (valueErr_long_ne_inc (intErr_len _)))
           | (have hk := convert_entry_error_kind _ _ heq
              rw [hk] at h
              exact absurd h (valueErr_long_ne_inc (entryTsErr_len _))))
    · intro h
      unfold process_file_entry
      rw [h]

/-! ### Import failure state (C1) -/

/-- C1 (amended): every failing import leaves the record sequence empty
(`clear` runs first and the contents are never assigned on a failure
path), and a NotFound or SchemaInvalid failure leaves the Manifest fully
cleared; but a `"Entry inconsistent"` (RecordInconsistent) failure
leaves the metadata populated with the new import's `manifest_filename`
and `timestamp_iso`, because the metadata is assigned before the record
list is processed. -/
theorem import_failure_state (m : Manifest) (isfile : Bool) (bn : String)
    (doc : List (String × PyVal)) :
    ((Manifest.import_arxiv_xml m isfile bn doc).2.isSome = true →
       (Manifest.import_arxiv_xml m isfile bn doc).1.contents = []) ∧
    ((isfile = false ∨ is_arxiv_keys_present doc ≠ Except.ok true) →
       (Manifest.import_arxiv_xml m isfile bn doc).1 = defaultManifest) ∧
    ((Manifest.import_arxiv_xml m isfile bn doc).2 =
        some (PyErr.valueErr "Entry inconsistent") →
       ∃ ts, (Manifest.import_arxiv_xml m isfile bn doc).1.metadata =
         [("manifest_filename", bn), ("timestamp_iso", ts)]) := by
  cases isfile with
  | false =>
    refine ⟨?_, ?_, ?_⟩
    · intro _
      simp [Manifest.import_arxiv_xml, Manifest.clear, defaultManifest]
    · intro _
      simp [Manifest.import_arxiv_xml, Manifest.clear, defaultManifest]
    · intro hcinc
      exfalso
      have h2 : (Manifest.import_arxiv_xml m false bn doc).2 =
          some (PyErr.fileNotFound "arXiv XML file not found") := by
        simp [Manifest.import_arxiv_xml]
      rw [h2] at hcinc
      simp at hcinc
  | true =>
    cases hv : is_arxiv_keys_present doc with
    | error e2 =>
      have hek := is_arxiv_error_kind _ _ hv
      refine ⟨?_, ?_, ?_⟩
      · intro _
        simp [Manifest.import_arxiv_xml, hv, Manifest.clear, defaultManifest]
      · intro _
        simp [Manifest.import_arxiv_xml, hv, Manifest.clear, defaultManifest]
      · intro hcinc
        exfalso
        have h2 : (Manifest.import_arxiv_xml m true bn doc).2 = some e2 := by
          simp [Manifest.import_arxiv_xml, hv]
        rw [h2, hek] at hcinc
        simp at hcinc
    | ok b =>
      cases b with
      | false =>
        refine ⟨?_, ?_, ?_⟩
        · intro _
          simp [Manifest.import_arxiv_xml, hv, Manifest.clear, defaultManifest]
        · intro _
          simp [Manifest.import_arxiv_xml, hv, Manifest.clear, defaultManifest]
        · intro hcinc
          exfalso
          have h2 : (Manifest.import_arxiv_xml m true bn doc).2 =
              some (PyErr.typeErr "Entries missing in arXiv XML file") := by
            simp [Manifest.import_arxiv_xml, hv]
          rw [h2] at hcinc
          simp at hcinc
      | true =>
        cases hc : convert_arxiv_timestamp_to_iso (docTimestamp doc) with
        | error e3 =>
          have hck := convert_manifest_error_kind _ _ hc
          refine ⟨?_, ?_, ?_⟩
          · intro _
            simp [Manifest.import_arxiv_xml, hv, hc, Manifest.clear, defaultManifest]
          · intro _
            simp [Manifest.import_arxiv_xml, hv, hc, Manifest.clear, defaultManifest]
          · intro hcinc
            exfalso
            have h2 : (Manifest.import_arxiv_xml m true bn doc).2 = some e3 := by
              simp [Manifest.import_arxiv_xml, hv, hc]
            rw [h2, hck] at hcinc
            simp only [Option.some.injEq] at hcinc
            exact valueErr_long_ne_inc (manifestTsErr_len _) hcinc
        | ok ts =>
          cases hm : mapExcept (fun v => process_file_entry (rawOfVal v)) (docFiles doc) with
          | error e4 =>
            refine ⟨?_, ?_, ?_⟩
            · intro _
              simp [Manifest.import_arxiv_xml, hv, hc, hm, Manifest.clear, defaultManifest]
            · intro hor
              rcases hor with h1 | h2
              · exact absurd h1 (by simp)
              · exact absurd rfl h2
            · intro _
              exact ⟨ts, by simp [Manifest.import_arxiv_xml, hv, hc, hm]⟩
          | ok recs =>
            refine ⟨?_, ?_, ?_⟩
            · intro hsome
              exfalso
              have h2 : (Manifest.import_arxiv_xml m true bn doc).2 = none := by
                simp [Manifest.import_arxiv_xml, hv, hc, hm]
              rw [h2] at hsome
              simp at hsome
            · intro hor
              rcases hor with h1 | h2
              · exact absurd h1 (by simp)
              · exact absurd rfl h2
            · intro hcinc
              exfalso
              have h2 : (Manifest.import_arxiv_xml m true bn doc).2 = none := by
                simp [Manifest.import_arxiv_xml, hv, hc, hm]
              rw [h2] at hcinc
              simp at hcinc

/-- C1 counterexample: importing `docInc` (second record inconsistent)
over a non-default prior state fails with `"Entry inconsistent"` but
leaves the metadata populated — the Manifest does not equal the fully
cleared state. -/
theorem import_inconsistent_not_cleared_cex :
    (Manifest.import_arxiv_xml mPrior true "m.xml" docInc).2 =
      some (PyErr.valueErr "Entry inconsistent") ∧
    (Manifest.import_arxiv_xml mPrior true "m.xml" docInc).1.metadata =
      [("manifest_filename", "m.xml"), ("timestamp_iso", "2025-04-07T08:58:03+00:00")] ∧
    (Manifest.import_arxiv_xml mPrior true "m.xml" docInc).1 ≠ defaultManifest :=
  ⟨rfl, rfl, by decide⟩

/-- C1 witness: the amended theorem applied at a missing file (fully
cleared) and at the inconsistent-record document (contents empty,
metadata populated). -/
theorem import_failure_state_witness :
    (Manifest.import_arxiv_xml mPrior false "m.xml" docGood).1 = defaultManifest ∧
    (Manifest.import_arxiv_xml mPrior true "m.xml" docInc).1.contents = [] ∧
    (∃ ts, (Manifest.import_arxiv_xml mPrior true "m.xml" docInc).1.metadata =
       [("manifest_filename", "m.xml"), ("timestamp_iso", ts)]) :=
  ⟨(import_failure_state mPrior false "m.xml" docGood).2.1 (Or.inl rfl),
   (import_failure_state mPrior true "m.xml" docInc).1 rfl,
   (import_failure_state mPrior true "m.xml" docInc).2.2 rfl⟩

/-! ### Filename invariant of stored records (C9) -/

/-- Whether a string is exactly four ASCII digits (the well-formed
`yymm` shape). -/
def yymmOk (s : String) : Bool :=
  match s.data with
  | [c1, c2, c3, c4] =>
    isDigitChar c1 && isDigitChar c2 && isDigitChar c3 && isDigitChar c4
  | _ => false

/-- The ASCII digit character for a value below 10. -/
def digitChar (n : Nat) : Char := Char.ofNat (48 + n)

/-- Two-digit zero-padded rendering of a small integer, for the spec's
"as-two-digit" rebuild. -/
def pad2Int (n : Int) : String := String.mk [digitChar (n.toNat / 10), digitChar (n.toNat % 10)]

/-- The filename the spec's invariant rebuilds from a record's own
derived fields: `src/arXiv_src_{(year mod 100) as two digits}{month as
two digits}_{sequence_number:03d}.tar`. -/
def recGenFilename (r : NormalizedRecord) : String :=
  "src/arXiv_src_" ++ pad2Int (r.year % 100) ++ pad2Int r.month ++ "_" ++
    format03d r.sequence_number ++ ".tar"

theorem pad2Int_two_digits {c1 c2 : Char} (h1 : isDigitChar c1 = true)
    (h2 : isDigitChar c2 = true) :
    pad2Int ((10 * digitVal c1 + digitVal c2 : Nat) : Int) = String.mk [c1, c2] := by
  have hb1 := digit_bounds h1
  have hb2 := digit_bounds h2
  unfold pad2Int digitChar
  have ht : ((((10 * digitVal c1 + digitVal c2 : Nat) : Int)).toNat) =
      10 * digitVal c1 + digitVal c2 := Int.toNat_natCast _
  rw [ht]
  have hd1 : (10 * digitVal c1 + digitVal c2) / 10 = digitVal c1 := by
    unfold digitVal at *
    omega
  have hd2 : (10 * digitVal c1 + digitVal c2) % 10 = digitVal c2 := by
    unfold digitVal at *
    omega
  rw [hd1, hd2]
  unfold digitVal
  have hc1 : 48 + (c1.toNat - 48) = c1.toNat := by omega
  have hc2 : 48 + (c2.toNat - 48) = c2.toNat := by omega
  rw [hc1, hc2, Char.ofNat_toNat, Char.ofNat_toNat]

/-- Per-entry form of the filename invariant: a normalized record
produced from an entry whose `yymm` is four digits carries a filename
equal to the rebuild from its own derived fields, and a month in
`[1, 12]`. -/
theorem process_filename_invariant (e : RawEntry) (rec : NormalizedRecord)
    (hok : process_file_entry e = Except.ok rec) (hyy : yymmOk e.yymm = true) :
    rec.filename = recGenFilename rec ∧ 1 ≤ rec.month ∧ rec.month ≤ 12 := by
  obtain ⟨c1, c2, c3, c4, hd, h1, h2, h3, h4⟩ :
      ∃ c1 c2 c3 c4, e.yymm.data = [c1, c2, c3, c4] ∧ isDigitChar c1 = true ∧
        isDigitChar c2 = true ∧ isDigitChar c3 = true ∧ isDigitChar c4 = true := by
    unfold yymmOk at hyy
    rcases hdd : e.yymm.data with _ | ⟨a, _ | ⟨b, _ | ⟨c, _ | ⟨d, _ | ⟨x, r⟩⟩⟩⟩⟩ <;>
      rw [hdd] at hyy <;> simp only [Bool.and_eq_true] at hyy
    · exact absurd hyy (by simp)
    · exact absurd hyy (by simp)
    · exact absurd hyy (by simp)
    · exact absurd hyy (by simp)
    · obtain ⟨⟨⟨ha, hb⟩, hc2⟩, hd2⟩ := hyy
      exact ⟨a, b, c, d, rfl, ha, hb, hc2, hd2⟩
    · exact absurd hyy (by simp)
  have hymm : e.yymm = String.mk [c1, c2, c3, c4] := String.ext hd
  have htake : strTake e.yymm 2 = String.mk [c1, c2] := by
    unfold strTake
    rw [hd]
    rfl
  have hdrop : strDrop e.yymm 2 = String.mk [c3, c4] := by
    unfold strDrop
    rw [hd]
    rfl
  unfold process_file_entry at hok
  repeat' split at hok
  all_goals try exact Except.noConfusion hok
  rename_i x7 hc x6 vsize hsize x5 vts hts x4 yy2 hyy2 x3 yr hyear x2 mo hmo x1 sq hsq x0 nn hn
  injection hok with hrec
  rw [← hrec]
  -- invert the consistency check
  unfold is_file_entry_consistent at hc
  rw [hsq] at hc
  rw [hmo] at hc
  simp only [Except.ok.injEq, Bool.and_eq_true, beq_iff_eq, Bool.not_eq_true',
    Bool.or_eq_false_iff, decide_eq_false_iff_not, not_le, not_lt] at hc
  obtain ⟨hfn, hmo1, hmo2⟩ := hc
  -- compute the parsed values
  unfold pyIntE at hyy2 hyear hmo
  rw [htake, pyInt_two h1 h2] at hyy2
  rw [hdrop, pyInt_two h3 h4] at hmo
  simp only [Except.ok.injEq] at hyy2 hmo
  refine ⟨?_, ?_, ?_⟩
  · -- filename invariant
    show e.filename = recGenFilename _
    have hyr : pad2Int (yr % 100) = String.mk [c1, c2] := by
      by_cases h90 : 90 < yy2
      · rw [if_pos h90] at hyear
        have hstr : ("19" ++ strTake e.yymm 2) = String.mk ['1','9',c1,c2] := by
          rw [htake]
          rfl
        rw [hstr, pyInt_four (by decide) (by decide) h1 h2] at hyear
        simp only [Except.ok.injEq] at hyear
        rw [← hyear]
        have : ((1000 * digitVal '1' + 100 * digitVal '9' + 10 * digitVal c1 +
            digitVal c2 : Nat) : Int) % 100 = ((10 * digitVal c1 + digitVal c2 : Nat) : Int) := by
          have hb1 := digit_bounds h1
          have hb2 := digit_bounds h2
          unfold digitVal at *
          simp only [Char.toNat] at *
          omega
        rw [this, pad2Int_two_digits h1 h2]
      · rw [if_neg h90] at hyear
        have hstr : ("20" ++ strTake e.yymm 2) = String.mk ['2','0',c1,c2] := by
          rw [htake]
          rfl
        rw [hstr, pyInt_four (by decide) (by decide) h1 h2] at hyear
        simp only [Except.ok.injEq] at hyear
        rw [← hyear]
        have : ((1000 * digitVal '2' + 100 * digitVal '0' + 10 * digitVal c1 +
            digitVal c2 : Nat) : Int) % 100 = ((10 * digitVal c1 + digitVal c2 : Nat) : Int) := by
          have hb1 := digit_bounds h1
          have hb2 := digit_bounds h2
          unfold digitVal at *
          simp only [Char.toNat] at *
          omega
        rw [this, pad2Int_two_digits h1 h2]
    have hmo' : pad2Int mo = String.mk [c3, c4] := by
      rw [← hmo, pad2Int_two_digits h3 h4]
    rw [hfn]
    unfold recGenFilename
    simp only [hyr, hmo', hymm]
    apply String.ext
    simp [String.data_append]
  · exact hmo1
  · exact hmo2

theorem mapExcept_ok_mem {α β : Type} (f : α → Except PyErr β) :
    ∀ (xs : List α) (ys : List β), mapExcept f xs = Except.ok ys →
      ∀ y ∈ ys, ∃ x ∈ xs, f x = Except.ok y := by
  intro xs
  induction xs with
  | nil =>
    intro ys h y hy
    unfold mapExcept at h
    simp only [Except.ok.injEq] at h
    subst h
    simp at hy
  | cons x xs ih =>
    intro ys h y hy
    unfold mapExcept at h
    cases hf : f x with
    | error e => rw [hf] at h; exact Except.noConfusion h
    | ok z =>
      rw [hf] at h
      cases hrec : mapExcept f xs with
      | error e => rw [hrec] at h; exact Except.noConfusion h
      | ok zs =>
        rw [hrec] at h
        simp only [Except.ok.injEq] at h
        subst h
        rcases List.mem_cons.mp hy with hy1 | hy2
        · exact ⟨x, List.mem_cons_self x xs, hy1 ▸ hf⟩
        · rcases ih zs hrec y hy2 with ⟨w, hw, hfw⟩
          exact ⟨w, List.mem_cons_of_mem x hw, hfw⟩

theorem import_ok_contents (m : Manifest) (isfile : Bool) (bn : String)
    (doc : List (String × PyVal)) (s : Manifest)
    (hok : Manifest.import_arxiv_xml m isfile bn doc = (s, none)) :
    ∃ recs, mapExcept (fun v => process_file_entry (rawOfVal v)) (docFiles doc) =
      Except.ok recs ∧ s.contents = recs := by
  cases isfile with
  | false =>
    exfalso
    have h2 : (Manifest.import_arxiv_xml m false bn doc).2 =
        some (PyErr.fileNotFound "arXiv XML file not found") := by
      simp [Manifest.import_arxiv_xml]
    rw [hok] at h2
    simp at h2
  | true =>
    cases hv : is_arxiv_keys_present doc with
    | error e2 =>
      exfalso
      have h2 : (Manifest.import_arxiv_xml m true bn doc).2 = some e2 := by
        simp [Manifest.import_arxiv_xml, hv]
      rw [hok] at h2
      simp at h2
    | ok b =>
      cases b with
      | false =>
        exfalso
        have h2 : (Manifest.import_arxiv_xml m true bn doc).2 =
            some (PyErr.typeErr "Entries missing in arXiv XML file") := by
          simp [Manifest.import_arxiv_xml, hv]
        rw [hok] at h2
        simp at h2
      | true =>
        cases hc : convert_arxiv_timestamp_to_iso (docTimestamp doc) with
        | error e3 =>
          exfalso
          have h2 : (Manifest.import_arxiv_xml m true bn doc).2 = some e3 := by
            simp [Manifest.import_arxiv_xml, hv, hc]
          rw [hok] at h2
          simp at h2
        | ok ts =>
          cases hm : mapExcept (fun v => process_file_entry (rawOfVal v)) (docFiles doc) with
          | error e4 =>
            exfalso
            have h2 : (Manifest.import_arxiv_xml m true bn doc).2 = some e4 := by
              simp [Manifest.import_arxiv_xml, hv, hc, hm]
            rw [hok] at h2
            simp at h2
          | ok recs =>
            have h1 : Manifest.import_arxiv_xml m true bn doc =
                (⟨[("manifest_filename", bn), ("timestamp_iso", ts)], recs⟩, none) := by
              simp [Manifest.import_arxiv_xml, hv, hc, hm, Manifest.clear, defaultManifest]
            rw [hok] at h1
            simp only [Prod.mk.injEq] at h1
            exact ⟨recs, rfl, by rw [h1.1]⟩

/-- C9 (amended): for every Manifest reached by a successful import of a
document whose entries' `yymm` fields are all exactly four ASCII digits,
every stored record's `filename` equals the rebuild from its own derived
fields `src/arXiv_src_{(year mod 100) two digits}{month two
digits}_{sequence_number:03d}.tar`, and its month lies in `[1, 12]`.
(Without the four-digit restriction a successful import can store a
violating record: see the counterexample.) -/
theorem import_filename_invariant (m : Manifest) (isfile : Bool) (bn : String)
    (doc : List (String × PyVal)) (s : Manifest)
    (hok : Manifest.import_arxiv_xml m isfile bn doc = (s, none))
    (hyy : (docFiles doc).all (fun v => yymmOk (rawOfVal v).yymm) = true) :
    ∀ rec ∈ s.contents,
      rec.filename = recGenFilename rec ∧ 1 ≤ rec.month ∧ rec.month ≤ 12 := by
  rcases import_ok_contents m isfile bn doc s hok with ⟨recs, hm, hcont⟩
  intro rec hrec
  rw [hcont] at hrec
  rcases mapExcept_ok_mem _ _ _ hm rec hrec with ⟨v, hv, hpv⟩
  exact process_filename_invariant (rawOfVal v) rec hpv (List.all_eq_true.mp hyy v hv)

/-- A one-entry document whose `yymm` is the three-character `"103"`;
schema-valid and consistent, so its import succeeds. -/
def doc103 : List (String × PyVal) :=
  [("arXivSRC", PyVal.dict
    [("timestamp", PyVal.str "Mon Apr  7 04:58:03 2025"),
     ("file", PyVal.list
       [entryDict "src/arXiv_src_103_001.tar" "1" "103" "2010-12-23 12:00:00"])])]

/-- C9 counterexample: importing `doc103` succeeds, yet the stored
record's filename `src/arXiv_src_103_001.tar` differs from the rebuild
from its derived fields (`year` 2010, `month` 3, sequence 1), which is
`src/arXiv_src_1003_001.tar`. -/
theorem import_filename_invariant_cex :
    (Manifest.import_arxiv_xml mPrior true "m.xml" doc103).2 = none ∧
    (Manifest.import_arxiv_xml mPrior true "m.xml" doc103).1.contents.map
        (fun r => (r.filename, recGenFilename r)) =
      [("src/arXiv_src_103_001.tar", "src/arXiv_src_1003_001.tar")] ∧
    ("src/arXiv_src_103_001.tar" : String) ≠ "src/arXiv_src_1003_001.tar" :=
  ⟨rfl, rfl, by decide⟩

/-- The first record of a successful `docGood` import. -/
def rGood1 : NormalizedRecord :=
  ⟨"src/arXiv_src_0001_001.tar", 10, "2010-12-23T05:13:59+00:00", 2000, 1, 1, 2, "d", "a"⟩

/-- C9 witness: the theorem applied at the concrete successful import of
`docGood`, instantiated at its first stored record. -/
theorem import_filename_invariant_witness :
    rGood1.filename = recGenFilename rGood1 ∧ 1 ≤ rGood1.month ∧ rGood1.month ≤ 12 :=
  import_filename_invariant mPrior true "m.xml" docGood
    (Manifest.import_arxiv_xml mPrior true "m.xml" docGood).1 rfl rfl rGood1 (by decide)
